import Mathlib

/-!
Shallow embedding of the Kiosk desktop core (TypeScript) for claim checking:
`WindowManager` (src/components/WindowManager.ts), `Desktop` relays
(src/components/Desktop.ts), `Taskbar` program list and `AppRegistry`.

JavaScript `Map` objects are embedded as insertion-ordered association lists
(`Map.set` overwrites in place or appends, `Map.delete` removes the entry,
iteration follows insertion order).  Event emission in the source is
synchronous: `emitEvent` invokes the registered listener callbacks at the
emission point, so each emitted event is paired with the manager state the
listeners observe at that moment (`Emission.seen`).  The `timestamp` field of
`WindowEvent` (`Date.now()` in the source) is an ambient clock value that no
control flow reads; it is omitted from the embedding.
-/

namespace Kiosk

/-- Window lifecycle event kinds, from `WindowEventType` in the source
(`'open' | 'close' | 'minimize' | 'maximize' | 'restore' | 'focus' | 'blur'`).
The constructor `opened` stands for the source tag `'open'` (a Lean keyword). -/
inductive WindowEventType where
  | opened
  | close
  | minimize
  | maximize
  | restore
  | focus
  | blur
deriving DecidableEq, Repr

/-- A lifecycle event (`WindowEvent` in the source, timestamp omitted). -/
structure WindowEvent where
  type : WindowEventType
  windowId : String
deriving DecidableEq, Repr

-- ===========================================================================
-- Association-list model of the JavaScript Map
-- ===========================================================================

/-- Lookup of `Map.get`: the first entry with the given key. -/
def alGet {α : Type} : List (String × α) → String → Option α
  | [], _ => none
  | e :: rest, k => if e.1 = k then some e.2 else alGet rest k

/-- Membership test of `Map.has`. -/
def alHas {α : Type} (m : List (String × α)) (k : String) : Bool :=
  (alGet m k).isSome

/-- Insertion of `Map.set`: overwrite in place if present, else append. -/
def alSet {α : Type} : List (String × α) → String → α → List (String × α)
  | [], k, v => [(k, v)]
  | e :: rest, k, v => if e.1 = k then (k, v) :: rest else e :: alSet rest k v

/-- Removal of `Map.delete` (keys are unique in every map the code builds). -/
def alDelete {α : Type} : List (String × α) → String → List (String × α)
  | [], _ => []
  | e :: rest, k => if e.1 = k then alDelete rest k else e :: alDelete rest k

/-- In-place mutation of the value stored under a key (`map.get(k).field = v`). -/
def alUpdate {α : Type} : List (String × α) → String → (α → α) → List (String × α)
  | [], _, _ => []
  | e :: rest, k, f =>
      (if e.1 = k then (e.1, f e.2) else e) :: alUpdate rest k f


-- ===========================================================================
-- Window manager data model
-- ===========================================================================

/-- JavaScript truthiness fallback `a || d` on an optional number: `0` is falsy. -/
def jsOrInt (o : Option Int) (d : Int) : Int :=
  match o with
  | some v => if v = 0 then d else v
  | none => d

/-- JavaScript truthiness fallback `s || d` on a string: `''` is falsy. -/
def jsOrStr (s d : String) : String :=
  if s = "" then d else s

/-- `WindowConfig` from the source (`src/types.ts`); the `content` blob and the
HTMLElement handle are collapsed to an optional opaque string. -/
structure WindowConfig where
  id : String
  title : String
  icon : Option String := none
  width : Option Int := none
  height : Option Int := none
  x : Option Int := none
  y : Option Int := none
  minWidth : Option Int := none
  minHeight : Option Int := none
  resizable : Option Bool := none
  closable : Option Bool := none
  minimizable : Option Bool := none
  maximizable : Option Bool := none
  modal : Option Bool := none
  content : Option String := none
deriving DecidableEq, Repr

/-- Observable state of one live WinBox window: the option fields the manager
submits to the engine plus the engine's `min` / `max` / `focused` flags
(declared in the repository's WinBox module augmentation). -/
structure WinState where
  title : String
  x : Int
  y : Int
  width : Int
  height : Int
  minWidth : Int
  minHeight : Int
  modal : Bool
  min : Bool
  max : Bool
  focused : Bool
deriving DecidableEq, Repr

/-- The `WindowManager` fields that carry state: the window-id → window map and
the synthetic-id counter. -/
structure WMState where
  windows : List (String × WinState)
  windowCounter : Nat
deriving DecidableEq, Repr

/-- The empty manager (`windows` empty, `windowCounter` 0). -/
def WMState.initial : WMState := { windows := [], windowCounter := 0 }

/-- The fixed reserved top band (`taskbarHeight = 28` in the source). -/
def taskbarHeight : Int := 28

/-- One synchronous event delivery: the event together with the manager state
the listeners observe at the moment `emitEvent` runs them. -/
structure Emission where
  event : WindowEvent
  seen : WMState
deriving DecidableEq, Repr

-- ===========================================================================
-- WinBox engine transitions
-- ===========================================================================

/-- Modelled from the spec: the WinBox rendering engine (§6 external
visual-engine contract; `winbox.js` itself is not in src/) — `minimize()` sets
the `min` flag and invokes the manager's `onminimize` callback, which emits the
`minimize` event. -/
def engineMinimize (s : WMState) (id : String) : WMState × List Emission :=
  let s' : WMState :=
    { s with windows := alUpdate s.windows id (fun w => { w with min := true }) }
  (s', [⟨⟨.minimize, id⟩, s'⟩])

/-- Modelled from the spec: engine `maximize()` sets the `max` flag and invokes
`onmaximize`, which emits the `maximize` event. -/
def engineMaximize (s : WMState) (id : String) : WMState × List Emission :=
  let s' : WMState :=
    { s with windows := alUpdate s.windows id (fun w => { w with max := true }) }
  (s', [⟨⟨.maximize, id⟩, s'⟩])

/-- Modelled from the spec: engine `restore()` clears the `min` and `max` flags
and invokes `onrestore`, which emits the `restore` event. -/
def engineRestore (s : WMState) (id : String) : WMState × List Emission :=
  let s' : WMState :=
    { s with windows :=
        alUpdate s.windows id (fun w => { w with min := false, max := false }) }
  (s', [⟨⟨.restore, id⟩, s'⟩])

/-- Focus transition on one map entry: the target gains focus, others lose it. -/
def engineFocusEntry (id : String) (e : String × WinState) : String × WinState :=
  if e.1 = id then (e.1, { e.2 with focused := true })
  else (e.1, { e.2 with focused := false })

/-- Modelled from the spec: engine `focus()` raises the target window, firing
`onblur` for each previously focused other window and `onfocus` for the target
(the manager callbacks emit the matching `blur` / `focus` events).  Listeners
run after the flag transition; they only ever query map membership, which the
transition does not change. -/
def engineFocus (s : WMState) (id : String) : WMState × List Emission :=
  let blurred :=
    s.windows.filter (fun e => decide (e.1 ≠ id) && e.2.focused)
  let s' : WMState := { s with windows := s.windows.map (engineFocusEntry id) }
  (s', blurred.map (fun e => ⟨⟨.blur, e.1⟩, s'⟩) ++ [⟨⟨.focus, id⟩, s'⟩])

/-- Engine `close()` invokes the manager's `onclose` handler
(WindowManager.ts lines 124-128), which first emits the `close` event — so
listeners run against the state still containing the window — and then deletes
the id from the map; the handler returns `false`, letting the engine finish
its teardown. -/
def engineClose (s : WMState) (id : String) : WMState × List Emission :=
  ({ s with windows := alDelete s.windows id }, [⟨⟨.close, id⟩, s⟩])

-- ===========================================================================
-- WindowManager operations
-- ===========================================================================

/-- `focusWindow(id)`: no-op returning false when the id is unknown, else
`win.focus()` and true. -/
def focusWindow (s : WMState) (id : String) : Bool × WMState × List Emission :=
  match alGet s.windows id with
  | some _ => let r := engineFocus s id; (true, r.1, r.2)
  | none => (false, s, [])

/-- The effective window id of `createWindow`: `config.id || window-N` — the
synthetic id is taken (incrementing the counter) exactly when `config.id` is
the empty (falsy) string. -/
def effectiveId (s : WMState) (config : WindowConfig) : String :=
  if config.id = "" then "window-" ++ toString (s.windowCounter + 1) else config.id

/-- The counter after the `config.id || window-++N` expression: the increment
happens only when the synthetic id is taken (`||` short-circuits). -/
def effectiveCounter (s : WMState) (config : WindowConfig) : Nat :=
  if config.id = "" then s.windowCounter + 1 else s.windowCounter

/-- The WinBox options `createWindow` submits to the engine on the no-duplicate
path: cascade defaults for x/y (`??`, so an explicit 0 wins), truthiness
defaults for the sizes (`||`, so an explicit 0 loses), and the open + focused
initial flags of a freshly constructed window. -/
def newWindowState (s : WMState) (config : WindowConfig) : WinState :=
  let existingCount : Int := s.windows.length
  let defaultX : Int := 50 + existingCount * 30
  let defaultY : Int := taskbarHeight + 20 + existingCount * 30
  { title := jsOrStr config.title "Window"
    x := config.x.getD defaultX
    y := config.y.getD defaultY
    width := jsOrInt config.width 400
    height := jsOrInt config.height 300
    minWidth := jsOrInt config.minWidth 200
    minHeight := jsOrInt config.minHeight 150
    modal := config.modal.getD false
    min := false
    max := false
    focused := true }

/-- `createWindow(config)`: resolve the effective id; if a window with that id
is live, focus and return it; otherwise instantiate the window from
`newWindowState`, store it, and only then emit the `open` event.  The returned
string is the id of the returned instance (the source returns the WinBox
reference itself and never null). -/
def createWindow (s : WMState) (config : WindowConfig) :
    String × WMState × List Emission :=
  let id := effectiveId s config
  let s0 : WMState :=
    { windows := s.windows, windowCounter := effectiveCounter s config }
  if alHas s0.windows id then
    let r := focusWindow s0 id
    (id, r.2.1, r.2.2)
  else
    let s' : WMState :=
      { windows := alSet s0.windows id (newWindowState s config)
        windowCounter := s0.windowCounter }
    (id, s', [⟨⟨.opened, id⟩, s'⟩])

/-- `closeWindow(id)`: no-op returning false when the id is unknown, else
`win.close()` and true. -/
def closeWindow (s : WMState) (id : String) : Bool × WMState × List Emission :=
  match alGet s.windows id with
  | some _ => let r := engineClose s id; (true, r.1, r.2)
  | none => (false, s, [])

/-- `minimizeWindow(id)`: no-op returning false when the id is unknown, else
`win.minimize()` and true. -/
def minimizeWindow (s : WMState) (id : String) : Bool × WMState × List Emission :=
  match alGet s.windows id with
  | some _ => let r := engineMinimize s id; (true, r.1, r.2)
  | none => (false, s, [])

/-- `maximizeWindow(id)`: no-op returning false when the id is unknown, else
`win.maximize()` and true. -/
def maximizeWindow (s : WMState) (id : String) : Bool × WMState × List Emission :=
  match alGet s.windows id with
  | some _ => let r := engineMaximize s id; (true, r.1, r.2)
  | none => (false, s, [])

/-- `restoreWindow(id)`: no-op returning false when the id is unknown, else
`win.restore()` and true. -/
def restoreWindow (s : WMState) (id : String) : Bool × WMState × List Emission :=
  match alGet s.windows id with
  | some _ => let r := engineRestore s id; (true, r.1, r.2)
  | none => (false, s, [])

/-- `toggleMinimize(id)`: restore when the `min` flag is set, else minimize;
false when the id is unknown. -/
def toggleMinimize (s : WMState) (id : String) : Bool × WMState × List Emission :=
  match alGet s.windows id with
  | some w =>
      if w.min then let r := engineRestore s id; (true, r.1, r.2)
      else let r := engineMinimize s id; (true, r.1, r.2)
  | none => (false, s, [])

/-- `isMinimized(id)`: `win?.min || false`. -/
def isMinimized (s : WMState) (id : String) : Bool :=
  match alGet s.windows id with
  | some w => w.min
  | none => false

/-- `hasWindow(id)`: `windows.has(id)`. -/
def hasWindow (s : WMState) (id : String) : Bool :=
  alHas s.windows id

/-- `getWindowIds()`: the keys of the window map in insertion order. -/
def getWindowIds (s : WMState) : List String :=
  s.windows.map Prod.fst

/-- The `forEach` loop of `closeAllWindows`: visit the entries in map order and
call `close()` on each.  Each `onclose` handler deletes only the entry being
visited, so the snapshot traversal matches the live `Map.forEach`. -/
def closeAllLoop : WMState → List (String × WinState) → WMState × List Emission
  | s, [] => (s, [])
  | s, e :: rest =>
      let r := engineClose s e.1
      let r' := closeAllLoop r.1 rest
      (r'.1, r.2 ++ r'.2)

/-- `closeAllWindows()`: close every live window, then `windows.clear()`. -/
def closeAllWindows (s : WMState) : WMState × List Emission :=
  let r := closeAllLoop s s.windows
  ({ r.1 with windows := [] }, r.2)

-- ===========================================================================
-- Taskbar program list (src/components/Taskbar.ts)
-- ===========================================================================

/-- A running-program entry (`TaskbarItem` in the source, icon omitted as it is
never set by the Desktop relay). -/
structure TaskbarItem where
  id : String
  title : String
  windowId : String
  active : Bool
deriving DecidableEq, Repr

/-- The taskbar's program map `taskbarItems`. -/
abbrev TaskbarState : Type := List (String × TaskbarItem)

/-- `addProgram(item)`: `taskbarItems.set(item.id, item)`. -/
def addProgram (tb : TaskbarState) (item : TaskbarItem) : TaskbarState :=
  alSet tb item.id item

/-- `removeProgram(id)`: `taskbarItems.delete(id)` (no-op for unknown ids). -/
def removeProgram (tb : TaskbarState) (id : String) : TaskbarState :=
  alDelete tb id

/-- `setActiveProgram(id, active)`: mutate the stored item's `active` flag when
the id is known, else do nothing. -/
def setActiveProgram (tb : TaskbarState) (id : String) (active : Bool) :
    TaskbarState :=
  alUpdate tb id (fun it => { it with active := active })

/-- `updateProgramTitle(id, title)`: mutate the stored item's title when the id
is known, else do nothing. -/
def updateProgramTitle (tb : TaskbarState) (id : String) (title : String) :
    TaskbarState :=
  alUpdate tb id (fun it => { it with title := title })

-- ===========================================================================
-- Desktop relay of WindowManager events (Desktop.setupWindowManagerEvents)
-- ===========================================================================

/-- The Desktop's four lifecycle subscriptions: `open` adds a taskbar item
built from `getWindow(event.windowId)` as seen inside the handler, `close`
removes the entry, `focus` / `blur` set the active flag; the manager's other
events have no Desktop subscriber. -/
def relayEvent (tb : TaskbarState) (em : Emission) : TaskbarState :=
  match em.event.type with
  | .opened =>
      match alGet em.seen.windows em.event.windowId with
      | some w =>
          addProgram tb
            { id := em.event.windowId
              title := jsOrStr w.title "Window"
              windowId := em.event.windowId
              active := true }
      | none => tb
  | .close => removeProgram tb em.event.windowId
  | .focus => setActiveProgram tb em.event.windowId true
  | .blur => setActiveProgram tb em.event.windowId false
  | _ => tb

/-- Synchronous delivery of a whole emission sequence to the Desktop relay. -/
def relayAll (tb : TaskbarState) (ems : List Emission) : TaskbarState :=
  ems.foldl relayEvent tb

/-- The combined state the Desktop wires together: the window manager and the
taskbar program list kept in sync purely through relayed events. -/
structure SysState where
  wm : WMState
  taskbar : TaskbarState
deriving DecidableEq, Repr

/-- The freshly constructed Desktop: no windows, no taskbar programs. -/
def SysState.initial : SysState := { wm := WMState.initial, taskbar := [] }

/-- `createWindow` as observed through the Desktop wiring. -/
def sysCreateWindow (sys : SysState) (cfg : WindowConfig) : SysState :=
  let r := createWindow sys.wm cfg
  { wm := r.2.1, taskbar := relayAll sys.taskbar r.2.2 }

/-- `closeWindow` as observed through the Desktop wiring. -/
def sysCloseWindow (sys : SysState) (id : String) : SysState :=
  let r := closeWindow sys.wm id
  { wm := r.2.1, taskbar := relayAll sys.taskbar r.2.2 }

/-- `minimizeWindow` as observed through the Desktop wiring. -/
def sysMinimizeWindow (sys : SysState) (id : String) : SysState :=
  let r := minimizeWindow sys.wm id
  { wm := r.2.1, taskbar := relayAll sys.taskbar r.2.2 }

/-- `maximizeWindow` as observed through the Desktop wiring. -/
def sysMaximizeWindow (sys : SysState) (id : String) : SysState :=
  let r := maximizeWindow sys.wm id
  { wm := r.2.1, taskbar := relayAll sys.taskbar r.2.2 }

/-- `restoreWindow` as observed through the Desktop wiring. -/
def sysRestoreWindow (sys : SysState) (id : String) : SysState :=
  let r := restoreWindow sys.wm id
  { wm := r.2.1, taskbar := relayAll sys.taskbar r.2.2 }

/-- `focusWindow` as observed through the Desktop wiring. -/
def sysFocusWindow (sys : SysState) (id : String) : SysState :=
  let r := focusWindow sys.wm id
  { wm := r.2.1, taskbar := relayAll sys.taskbar r.2.2 }

/-- `toggleMinimize` as observed through the Desktop wiring. -/
def sysToggleMinimize (sys : SysState) (id : String) : SysState :=
  let r := toggleMinimize sys.wm id
  { wm := r.2.1, taskbar := relayAll sys.taskbar r.2.2 }

/-- `closeAllWindows` as observed through the Desktop wiring. -/
def sysCloseAllWindows (sys : SysState) : SysState :=
  let r := closeAllWindows sys.wm
  { wm := r.1, taskbar := relayAll sys.taskbar r.2 }

/-- System states reachable from the freshly constructed Desktop through the
wired operations (every WindowManager mutation in the application goes through
these, and the Desktop registers its relay callbacks before any window
exists). -/
inductive Reachable : SysState → Prop where
  | init : Reachable SysState.initial
  | create (cfg : WindowConfig) {sys : SysState} :
      Reachable sys → Reachable (sysCreateWindow sys cfg)
  | close (id : String) {sys : SysState} :
      Reachable sys → Reachable (sysCloseWindow sys id)
  | minimize (id : String) {sys : SysState} :
      Reachable sys → Reachable (sysMinimizeWindow sys id)
  | maximize (id : String) {sys : SysState} :
      Reachable sys → Reachable (sysMaximizeWindow sys id)
  | restore (id : String) {sys : SysState} :
      Reachable sys → Reachable (sysRestoreWindow sys id)
  | focus (id : String) {sys : SysState} :
      Reachable sys → Reachable (sysFocusWindow sys id)
  | toggle (id : String) {sys : SysState} :
      Reachable sys → Reachable (sysToggleMinimize sys id)
  | closeAll {sys : SysState} :
      Reachable sys → Reachable (sysCloseAllWindows sys)

/-- The window ↔ taskbar coupling invariant: the taskbar programs mirror the
live windows key for key (in the same insertion order), and window ids are
unique. -/
def SysInv (sys : SysState) : Prop :=
  sys.taskbar.map Prod.fst = sys.wm.windows.map Prod.fst ∧
    (sys.wm.windows.map Prod.fst).Nodup

-- ===========================================================================
-- Application registry (AppRegistry)
-- ===========================================================================

/-- Start-menu groups, fixed order `['primary', 'secondary', 'power']`. -/
inductive StartMenuGroup where
  | primary
  | secondary
  | power
deriving DecidableEq, Repr

/-- Group rank `START_MENU_ORDER.indexOf(group)`; an absent group sorts at
`START_MENU_ORDER.length`. -/
def groupRank : Option StartMenuGroup → Nat
  | some .primary => 0
  | some .secondary => 1
  | some .power => 2
  | none => 3

/-- An `AppDefinition`: identity, presentation metadata and the launch factory
producing a window configuration (the asynchronous completion is collapsed to
the value the caller awaits). -/
structure AppDefinition where
  id : String
  title : String
  icon : String
  startMenuGroup : Option StartMenuGroup
  showOnDesktop : Bool
  launch : Unit → WindowConfig

/-- The registry's app map. -/
structure AppRegistry where
  apps : List (String × AppDefinition)

/-- The empty registry. -/
def AppRegistry.empty : AppRegistry := { apps := [] }

/-- `register(app)`: insert when the id is unused, else warn and discard. -/
def register (reg : AppRegistry) (app : AppDefinition) : AppRegistry :=
  if alHas reg.apps app.id then reg
  else { apps := alSet reg.apps app.id app }

/-- `registerAll(apps)`: `register` each in order. -/
def registerAll (reg : AppRegistry) (apps : List AppDefinition) : AppRegistry :=
  apps.foldl register reg

/-- `listApps()`: the stored apps in insertion order. -/
def listApps (reg : AppRegistry) : List AppDefinition :=
  reg.apps.map Prod.snd

/-- Lexicographic code-point comparison of character lists: the shallow
embedding of the `localeCompare(...) <= 0` title comparison (structural, so
that concrete registries evaluate). -/
def lexLe : List Char → List Char → Bool
  | [], _ => true
  | _ :: _, [] => false
  | c :: cs, d :: ds =>
      if c = d then lexLe cs ds
      else decide (c < d)

/-- Title order `a.localeCompare(b) <= 0`, embedded code-point-wise. -/
def titleLe (a b : String) : Bool := lexLe a.data b.data

/-- The comparator of `sortByStartMenuOrder` as a relation: ascending group
rank, ties broken by title (`localeCompare` embedded as `titleLe`). -/
def smRel (a b : AppDefinition) : Prop :=
  groupRank a.startMenuGroup < groupRank b.startMenuGroup ∨
    (groupRank a.startMenuGroup = groupRank b.startMenuGroup ∧
      titleLe a.title b.title = true)

instance : DecidableRel smRel := fun a b =>
  inferInstanceAs
    (Decidable (groupRank a.startMenuGroup < groupRank b.startMenuGroup ∨
      (groupRank a.startMenuGroup = groupRank b.startMenuGroup ∧
        titleLe a.title b.title = true)))

/-- `sortByStartMenuOrder(apps)`: the stable comparison sort (JS `Array.sort`)
under the group-rank / title comparator, embedded as an insertion sort. -/
def sortByStartMenuOrder (apps : List AppDefinition) : List AppDefinition :=
  List.insertionSort smRel apps

/-- `getStartMenuApps()`: apps with a start-menu group (truthiness filter),
sorted by `sortByStartMenuOrder`. -/
def getStartMenuApps (reg : AppRegistry) : List AppDefinition :=
  sortByStartMenuOrder ((listApps reg).filter (fun app => app.startMenuGroup.isSome))

/-- `getDesktopApps()`: apps flagged for the desktop, in registration order. -/
def getDesktopApps (reg : AppRegistry) : List AppDefinition :=
  (listApps reg).filter (fun app => app.showOnDesktop)

/-- `launch(id)`: when the id is unknown, warn and return false; otherwise
await the app's launch factory, submit the produced configuration to
`createWindow`, and return true. -/
def launch (reg : AppRegistry) (wm : WMState) (id : String) :
    Bool × WMState × List Emission :=
  match alGet reg.apps id with
  | none => (false, wm, [])
  | some app =>
      let r := createWindow wm (app.launch ())
      (true, r.2.1, r.2.2)


-- ===========================================================================
-- Desktop listener registrations (Desktop.ts / Taskbar.ts setup and teardown)
-- ===========================================================================

/-- Every `addEventListener` registration made while constructing a `Desktop`,
as (target, event type) pairs in registration order: the Taskbar constructor
registers the start-button and start-menu click handlers, the clock tooltip
handlers and the outside-click handler; `Desktop.init` then registers the
document-level `taskbar-click` relay, the icon-container click, the desktop
context-menu handler, the document `keydown` handler, the document-level
`menu-action` channel, and a click + dblclick pair for each of the three
default icons. -/
def desktopInitListeners : List (String × String) :=
  [("start-button", "click"), ("start-menu-items", "click"),
   ("clock", "mouseenter"), ("clock", "mousemove"), ("clock", "mouseleave"),
   ("document", "click"),
   ("document", "taskbar-click"),
   ("desktop-icons", "click"), ("desktop", "contextmenu"),
   ("document", "keydown"),
   ("document", "menu-action"),
   ("icon-my-computer", "click"), ("icon-my-computer", "dblclick"),
   ("icon-my-documents", "click"), ("icon-my-documents", "dblclick"),
   ("icon-recycle-bin", "click"), ("icon-recycle-bin", "dblclick")]

/-- The `removeEventListener` calls performed by `Desktop.destroy()`: all of
them live in `Taskbar.destroy()` (the stored start-button, start-menu,
outside-click and clock-tooltip handlers); `WindowManager.destroy()` only
closes windows, and `Desktop` removes none of its own registrations. -/
def desktopDestroyRemovedListeners : List (String × String) :=
  [("start-button", "click"), ("start-menu-items", "click"),
   ("document", "click"),
   ("clock", "mouseenter"), ("clock", "mousemove"), ("clock", "mouseleave")]

/-- The listener registrations that survive one construct / destroy cycle. -/
def desktopLeakedListeners : List (String × String) :=
  desktopInitListeners.diff desktopDestroyRemovedListeners

-- ===========================================================================
-- Concrete fixtures for the closed checks
-- ===========================================================================

/-- A sample live window. -/
def sampleWin : WinState :=
  { title := "Sample", x := 50, y := 48, width := 400, height := 300,
    minWidth := 200, minHeight := 150, modal := false,
    min := false, max := false, focused := true }

/-- A manager holding the single live window "a". -/
def sampleWM : WMState := { windows := [("a", sampleWin)], windowCounter := 0 }

/-- A configuration for the first creation of window "a". -/
def firstConfig : WindowConfig := { id := "a", title := "Sample" }

/-- A second configuration reusing the id "a". -/
def dupConfig : WindowConfig := { id := "a", title := "Again" }

/-- A configuration carrying an explicit (falsy) width of 0. -/
def zeroWidthConfig : WindowConfig :=
  { id := "z", title := "Zero", width := some 0 }

/-- A configuration with explicit geometry on every axis. -/
def explicitGeomConfig : WindowConfig :=
  { id := "e", title := "Explicit",
    x := some 7, y := some 9, width := some 5, height := some 6 }

/-- A registered application. -/
def calcApp : AppDefinition :=
  { id := "calc", title := "Calculator", icon := "calc",
    startMenuGroup := some .primary, showOnDesktop := true,
    launch := fun _ => { id := "calc", title := "Calculator" } }

/-- A registry holding only `calcApp`. -/
def sampleRegistry : AppRegistry := registerAll AppRegistry.empty [calcApp]

/-- App A of the start-menu ordering example: group secondary. -/
def exampleAppA : AppDefinition :=
  { id := "A", title := "A", icon := "a", startMenuGroup := some .secondary,
    showOnDesktop := false, launch := fun _ => { id := "A", title := "A" } }

/-- App B of the start-menu ordering example: group primary, title below C. -/
def exampleAppB : AppDefinition :=
  { id := "B", title := "B", icon := "b", startMenuGroup := some .primary,
    showOnDesktop := false, launch := fun _ => { id := "B", title := "B" } }

/-- App C of the start-menu ordering example: group primary, title above B. -/
def exampleAppC : AppDefinition :=
  { id := "C", title := "C", icon := "c", startMenuGroup := some .primary,
    showOnDesktop := false, launch := fun _ => { id := "C", title := "C" } }

/-- The registry of the ordering example, registered in order A, B, C. -/
def exampleRegistry : AppRegistry :=
  registerAll AppRegistry.empty [exampleAppA, exampleAppB, exampleAppC]

/-- The one-window Desktop system used as a reachable witness state. -/
def sampleSys : SysState := sysCreateWindow SysState.initial firstConfig


-- ===========================================================================
-- Association-list lemmas
-- ===========================================================================
theorem alGet_eq_none_iff {α : Type} (m : List (String × α)) (k : String) :
    alGet m k = none ↔ k ∉ m.map Prod.fst := by
  induction m with
  | nil => simp [alGet]
  | cons e rest ih =>
      obtain ⟨a, b⟩ := e
      by_cases h : a = k
      · subst h
        simp [alGet]
      · simp only [alGet, if_neg h, List.map_cons, List.mem_cons, not_or, ih]
        exact ⟨fun hk => ⟨fun hc => h hc.symm, hk⟩, fun hk => hk.2⟩

theorem alHas_false_iff {α : Type} (m : List (String × α)) (k : String) :
    alHas m k = false ↔ alGet m k = none := by
  unfold alHas
  cases alGet m k <;> simp

theorem alSet_of_not_mem {α : Type} (m : List (String × α)) (k : String) (v : α)
    (h : alGet m k = none) : alSet m k v = m ++ [(k, v)] := by
  induction m with
  | nil => simp [alSet]
  | cons e rest ih =>
      by_cases he : e.1 = k
      · simp [alGet, he] at h
      · simp [alGet, he] at h
        simp [alSet, he, ih h]

theorem alGet_alSet_self {α : Type} (m : List (String × α)) (k : String) (v : α) :
    alGet (alSet m k v) k = some v := by
  induction m with
  | nil => simp [alSet, alGet]
  | cons e rest ih =>
      by_cases he : e.1 = k <;> simp [alSet, he, alGet, ih]

theorem keys_alDelete {α : Type} (m : List (String × α)) (k : String) :
    (alDelete m k).map Prod.fst = (m.map Prod.fst).filter (fun a => a ≠ k) := by
  induction m with
  | nil => simp [alDelete]
  | cons e rest ih =>
      by_cases he : e.1 = k <;> simp [alDelete, he, ih]

theorem keys_alUpdate {α : Type} (m : List (String × α)) (k : String) (f : α → α) :
    (alUpdate m k f).map Prod.fst = m.map Prod.fst := by
  induction m with
  | nil => simp [alUpdate]
  | cons e rest ih =>
      by_cases he : e.1 = k <;> simp [alUpdate, he, ih]

theorem alGet_alUpdate_self {α : Type} (m : List (String × α)) (k : String) (f : α → α) :
    alGet (alUpdate m k f) k = (alGet m k).map f := by
  induction m with
  | nil => simp [alUpdate, alGet]
  | cons e rest ih =>
      by_cases he : e.1 = k <;> simp [alUpdate, he, alGet, ih]

theorem alGet_alUpdate_ne {α : Type} (m : List (String × α)) (k k' : String)
    (f : α → α) (h : k' ≠ k) : alGet (alUpdate m k f) k' = alGet m k' := by
  induction m with
  | nil => simp [alUpdate, alGet]
  | cons e rest ih =>
      obtain ⟨a, b⟩ := e
      by_cases he : a = k
      · subst he
        have hne : ¬ a = k' := fun hc => h hc.symm
        simp [alUpdate, alGet, hne, ih]
      · by_cases he' : a = k'
        · subst he'
          simp [alUpdate, alGet, he, ih]
        · simp [alUpdate, alGet, he, he', ih]

theorem alUpdate_alUpdate {α : Type} (m : List (String × α)) (k : String)
    (f g : α → α) :
    alUpdate (alUpdate m k f) k g = alUpdate m k (fun v => g (f v)) := by
  induction m with
  | nil => simp [alUpdate]
  | cons e rest ih =>
      by_cases he : e.1 = k <;> simp [alUpdate, he, ih]

theorem alUpdate_id {α : Type} (m : List (String × α)) (k : String)
    (f : α → α) (h : ∀ v, f v = v) : alUpdate m k f = m := by
  induction m with
  | nil => simp [alUpdate]
  | cons e rest ih =>
      obtain ⟨a, b⟩ := e
      by_cases he : a = k
      · subst he
        simp [alUpdate, ih, h]
      · simp [alUpdate, he, ih, h]

-- ===========================================================================
-- Branch equations for the operations
-- ===========================================================================

theorem focusWindow_none (s : WMState) (id : String)
    (h : alGet s.windows id = none) : focusWindow s id = (false, s, []) := by
  unfold focusWindow
  rw [h]

theorem focusWindow_some (s : WMState) (id : String) (w : WinState)
    (h : alGet s.windows id = some w) :
    focusWindow s id = (true, (engineFocus s id).1, (engineFocus s id).2) := by
  unfold focusWindow
  rw [h]

theorem closeWindow_none (s : WMState) (id : String)
    (h : alGet s.windows id = none) : closeWindow s id = (false, s, []) := by
  unfold closeWindow
  rw [h]

theorem closeWindow_some (s : WMState) (id : String) (w : WinState)
    (h : alGet s.windows id = some w) :
    closeWindow s id = (true, (engineClose s id).1, (engineClose s id).2) := by
  unfold closeWindow
  rw [h]

theorem minimizeWindow_none (s : WMState) (id : String)
    (h : alGet s.windows id = none) : minimizeWindow s id = (false, s, []) := by
  unfold minimizeWindow
  rw [h]

theorem minimizeWindow_some (s : WMState) (id : String) (w : WinState)
    (h : alGet s.windows id = some w) :
    minimizeWindow s id = (true, (engineMinimize s id).1, (engineMinimize s id).2) := by
  unfold minimizeWindow
  rw [h]

theorem maximizeWindow_none (s : WMState) (id : String)
    (h : alGet s.windows id = none) : maximizeWindow s id = (false, s, []) := by
  unfold maximizeWindow
  rw [h]

theorem maximizeWindow_some (s : WMState) (id : String) (w : WinState)
    (h : alGet s.windows id = some w) :
    maximizeWindow s id = (true, (engineMaximize s id).1, (engineMaximize s id).2) := by
  unfold maximizeWindow
  rw [h]

theorem restoreWindow_none (s : WMState) (id : String)
    (h : alGet s.windows id = none) : restoreWindow s id = (false, s, []) := by
  unfold restoreWindow
  rw [h]

theorem restoreWindow_some (s : WMState) (id : String) (w : WinState)
    (h : alGet s.windows id = some w) :
    restoreWindow s id = (true, (engineRestore s id).1, (engineRestore s id).2) := by
  unfold restoreWindow
  rw [h]

theorem toggleMinimize_none (s : WMState) (id : String)
    (h : alGet s.windows id = none) : toggleMinimize s id = (false, s, []) := by
  unfold toggleMinimize
  rw [h]

theorem toggleMinimize_of_min (s : WMState) (id : String) (w : WinState)
    (h : alGet s.windows id = some w) (hmin : w.min = true) :
    toggleMinimize s id = (true, (engineRestore s id).1, (engineRestore s id).2) := by
  unfold toggleMinimize
  rw [h]
  simp [hmin]

theorem toggleMinimize_of_not_min (s : WMState) (id : String) (w : WinState)
    (h : alGet s.windows id = some w) (hmin : w.min = false) :
    toggleMinimize s id = (true, (engineMinimize s id).1, (engineMinimize s id).2) := by
  unfold toggleMinimize
  rw [h]
  simp [hmin]

theorem createWindow_existing (s : WMState) (cfg : WindowConfig)
    (hhas : alHas s.windows (effectiveId s cfg) = true) :
    createWindow s cfg =
      (effectiveId s cfg,
        (focusWindow { windows := s.windows, windowCounter := effectiveCounter s cfg }
          (effectiveId s cfg)).2.1,
        (focusWindow { windows := s.windows, windowCounter := effectiveCounter s cfg }
          (effectiveId s cfg)).2.2) := by
  simp [createWindow, hhas]

theorem createWindow_new (s : WMState) (cfg : WindowConfig)
    (hhas : alHas s.windows (effectiveId s cfg) = false) :
    createWindow s cfg =
      (effectiveId s cfg,
        { windows := alSet s.windows (effectiveId s cfg) (newWindowState s cfg)
          windowCounter := effectiveCounter s cfg },
        [⟨⟨.opened, effectiveId s cfg⟩,
          { windows := alSet s.windows (effectiveId s cfg) (newWindowState s cfg)
            windowCounter := effectiveCounter s cfg }⟩]) := by
  simp [createWindow, hhas]

theorem launch_none (reg : AppRegistry) (wm : WMState) (id : String)
    (h : alGet reg.apps id = none) : launch reg wm id = (false, wm, []) := by
  unfold launch
  rw [h]

theorem launch_some (reg : AppRegistry) (wm : WMState) (id : String)
    (app : AppDefinition) (h : alGet reg.apps id = some app) :
    launch reg wm id =
      (true, (createWindow wm (app.launch ())).2.1,
        (createWindow wm (app.launch ())).2.2) := by
  unfold launch
  rw [h]

-- ===========================================================================
-- Coupling-invariant lemmas
-- ===========================================================================

theorem keys_map_engineFocusEntry (m : List (String × WinState)) (id : String) :
    (m.map (engineFocusEntry id)).map Prod.fst = m.map Prod.fst := by
  induction m with
  | nil => simp
  | cons e rest ih =>
      by_cases he : e.1 = id <;> simp [engineFocusEntry, he, ih]

theorem keys_engineFocus (s : WMState) (id : String) :
    (engineFocus s id).1.windows.map Prod.fst = s.windows.map Prod.fst := by
  simp only [engineFocus]
  exact keys_map_engineFocusEntry s.windows id

theorem relayEvent_passive (tb : TaskbarState) (em : Emission)
    (h1 : em.event.type ≠ .opened) (h2 : em.event.type ≠ .close) :
    (relayEvent tb em).map Prod.fst = tb.map Prod.fst := by
  cases htype : em.event.type <;>
    simp_all [relayEvent, setActiveProgram, keys_alUpdate]

theorem relayAll_passive (tb : TaskbarState) (ems : List Emission)
    (h : ∀ em ∈ ems, em.event.type ≠ .opened ∧ em.event.type ≠ .close) :
    (relayAll tb ems).map Prod.fst = tb.map Prod.fst := by
  induction ems generalizing tb with
  | nil => rfl
  | cons em rest ih =>
      have hm := h em (List.mem_cons_self em rest)
      calc (relayAll (relayEvent tb em) rest).map Prod.fst
          = (relayEvent tb em).map Prod.fst :=
            ih (relayEvent tb em) (fun e he => h e (List.mem_cons_of_mem em he))
        _ = tb.map Prod.fst := relayEvent_passive tb em hm.1 hm.2

theorem engineFocus_emissions_passive (s : WMState) (id : String) :
    ∀ em ∈ (engineFocus s id).2,
      em.event.type ≠ .opened ∧ em.event.type ≠ .close := by
  intro em hm
  simp only [engineFocus, List.mem_append, List.mem_map, List.mem_singleton] at hm
  rcases hm with ⟨e, _, rfl⟩ | rfl <;> exact ⟨by simp, by simp⟩

theorem keys_relayAll_engineFocus (tb : TaskbarState) (s : WMState) (id : String) :
    (relayAll tb (engineFocus s id).2).map Prod.fst = tb.map Prod.fst :=
  relayAll_passive tb _ (engineFocus_emissions_passive s id)

theorem sysInv_initial : SysInv SysState.initial := by
  constructor <;> simp [SysState.initial, WMState.initial]

theorem sysInv_sysFocusWindow (sys : SysState) (id : String) (h : SysInv sys) :
    SysInv (sysFocusWindow sys id) := by
  obtain ⟨hkeys, hnodup⟩ := h
  unfold sysFocusWindow
  cases hget : alGet sys.wm.windows id with
  | none =>
      rw [focusWindow_none _ _ hget]
      exact ⟨hkeys, hnodup⟩
  | some w =>
      rw [focusWindow_some _ _ w hget]
      refine ⟨?_, ?_⟩
      · show (relayAll sys.taskbar (engineFocus sys.wm id).2).map Prod.fst =
          (engineFocus sys.wm id).1.windows.map Prod.fst
        rw [keys_relayAll_engineFocus, keys_engineFocus]
        exact hkeys
      · show ((engineFocus sys.wm id).1.windows.map Prod.fst).Nodup
        rw [keys_engineFocus]
        exact hnodup

theorem sysInv_sysCreateWindow (sys : SysState) (cfg : WindowConfig)
    (h : SysInv sys) : SysInv (sysCreateWindow sys cfg) := by
  obtain ⟨hkeys, hnodup⟩ := h
  unfold sysCreateWindow
  cases hhas : alHas sys.wm.windows (effectiveId sys.wm cfg) with
  | true =>
      obtain ⟨w, hget⟩ : ∃ w, alGet sys.wm.windows (effectiveId sys.wm cfg) = some w := by
        unfold alHas at hhas
        cases hv : alGet sys.wm.windows (effectiveId sys.wm cfg) with
        | none => rw [hv] at hhas; cases hhas
        | some w => exact ⟨w, rfl⟩
      rw [createWindow_existing _ _ hhas, focusWindow_some
        { windows := sys.wm.windows, windowCounter := effectiveCounter sys.wm cfg }
        _ w hget]
      refine ⟨?_, ?_⟩
      · show (relayAll sys.taskbar
            (engineFocus
              { windows := sys.wm.windows,
                windowCounter := effectiveCounter sys.wm cfg }
              (effectiveId sys.wm cfg)).2).map Prod.fst =
          (engineFocus
            { windows := sys.wm.windows,
              windowCounter := effectiveCounter sys.wm cfg }
            (effectiveId sys.wm cfg)).1.windows.map Prod.fst
        rw [keys_relayAll_engineFocus, keys_engineFocus]
        exact hkeys
      · show ((engineFocus
            { windows := sys.wm.windows,
              windowCounter := effectiveCounter sys.wm cfg }
            (effectiveId sys.wm cfg)).1.windows.map Prod.fst).Nodup
        rw [keys_engineFocus]
        exact hnodup
  | false =>
      have hnone : alGet sys.wm.windows (effectiveId sys.wm cfg) = none :=
        (alHas_false_iff _ _).mp hhas
      have hnot : effectiveId sys.wm cfg ∉ sys.wm.windows.map Prod.fst :=
        (alGet_eq_none_iff _ _).mp hnone
      have htbnone : alGet sys.taskbar (effectiveId sys.wm cfg) = none := by
        rw [alGet_eq_none_iff, hkeys]
        exact hnot
      rw [createWindow_new _ _ hhas]
      refine ⟨?_, ?_⟩
      · show (relayEvent sys.taskbar
            ⟨⟨.opened, effectiveId sys.wm cfg⟩,
              { windows := alSet sys.wm.windows (effectiveId sys.wm cfg)
                  (newWindowState sys.wm cfg)
                windowCounter := effectiveCounter sys.wm cfg }⟩).map Prod.fst =
          (alSet sys.wm.windows (effectiveId sys.wm cfg)
            (newWindowState sys.wm cfg)).map Prod.fst
        simp only [relayEvent, alGet_alSet_self]
        rw [addProgram, alSet_of_not_mem _ _ _ htbnone, alSet_of_not_mem _ _ _ hnone]
        simp [hkeys]
      · show ((alSet sys.wm.windows (effectiveId sys.wm cfg)
            (newWindowState sys.wm cfg)).map Prod.fst).Nodup
        rw [alSet_of_not_mem _ _ _ hnone]
        simp only [List.map_append, List.map_cons, List.map_nil]
        rw [List.nodup_append]
        refine ⟨hnodup, List.nodup_singleton _, ?_⟩
        intro a ha hb
        rw [List.mem_singleton] at hb
        subst hb
        exact hnot ha

theorem sysInv_sysCloseWindow (sys : SysState) (id : String) (h : SysInv sys) :
    SysInv (sysCloseWindow sys id) := by
  obtain ⟨hkeys, hnodup⟩ := h
  unfold sysCloseWindow
  cases hget : alGet sys.wm.windows id with
  | none =>
      rw [closeWindow_none _ _ hget]
      exact ⟨hkeys, hnodup⟩
  | some w =>
      rw [closeWindow_some _ _ w hget]
      refine ⟨?_, ?_⟩
      · show (removeProgram sys.taskbar id).map Prod.fst =
          (alDelete sys.wm.windows id).map Prod.fst
        rw [removeProgram, keys_alDelete, keys_alDelete, hkeys]
      · show ((alDelete sys.wm.windows id).map Prod.fst).Nodup
        rw [keys_alDelete]
        exact hnodup.filter _

theorem sysInv_sysMinimizeWindow (sys : SysState) (id : String) (h : SysInv sys) :
    SysInv (sysMinimizeWindow sys id) := by
  obtain ⟨hkeys, hnodup⟩ := h
  unfold sysMinimizeWindow
  cases hget : alGet sys.wm.windows id with
  | none =>
      rw [minimizeWindow_none _ _ hget]
      exact ⟨hkeys, hnodup⟩
  | some w =>
      rw [minimizeWindow_some _ _ w hget]
      refine ⟨?_, ?_⟩
      · show sys.taskbar.map Prod.fst =
          (alUpdate sys.wm.windows id (fun w => { w with min := true })).map Prod.fst
        rw [keys_alUpdate]
        exact hkeys
      · show ((alUpdate sys.wm.windows id
            (fun w => { w with min := true })).map Prod.fst).Nodup
        rw [keys_alUpdate]
        exact hnodup

theorem sysInv_sysMaximizeWindow (sys : SysState) (id : String) (h : SysInv sys) :
    SysInv (sysMaximizeWindow sys id) := by
  obtain ⟨hkeys, hnodup⟩ := h
  unfold sysMaximizeWindow
  cases hget : alGet sys.wm.windows id with
  | none =>
      rw [maximizeWindow_none _ _ hget]
      exact ⟨hkeys, hnodup⟩
  | some w =>
      rw [maximizeWindow_some _ _ w hget]
      refine ⟨?_, ?_⟩
      · show sys.taskbar.map Prod.fst =
          (alUpdate sys.wm.windows id (fun w => { w with max := true })).map Prod.fst
        rw [keys_alUpdate]
        exact hkeys
      · show ((alUpdate sys.wm.windows id
            (fun w => { w with max := true })).map Prod.fst).Nodup
        rw [keys_alUpdate]
        exact hnodup

theorem sysInv_sysRestoreWindow (sys : SysState) (id : String) (h : SysInv sys) :
    SysInv (sysRestoreWindow sys id) := by
  obtain ⟨hkeys, hnodup⟩ := h
  unfold sysRestoreWindow
  cases hget : alGet sys.wm.windows id with
  | none =>
      rw [restoreWindow_none _ _ hget]
      exact ⟨hkeys, hnodup⟩
  | some w =>
      rw [restoreWindow_some _ _ w hget]
      refine ⟨?_, ?_⟩
      · show sys.taskbar.map Prod.fst =
          (alUpdate sys.wm.windows id
            (fun w => { w with min := false, max := false })).map Prod.fst
        rw [keys_alUpdate]
        exact hkeys
      · show ((alUpdate sys.wm.windows id
            (fun w => { w with min := false, max := false })).map Prod.fst).Nodup
        rw [keys_alUpdate]
        exact hnodup

theorem sysInv_sysToggleMinimize (sys : SysState) (id : String) (h : SysInv sys) :
    SysInv (sysToggleMinimize sys id) := by
  obtain ⟨hkeys, hnodup⟩ := h
  unfold sysToggleMinimize
  cases hget : alGet sys.wm.windows id with
  | none =>
      rw [toggleMinimize_none _ _ hget]
      exact ⟨hkeys, hnodup⟩
  | some w =>
      by_cases hmin : w.min = true
      · rw [toggleMinimize_of_min _ _ w hget hmin]
        refine ⟨?_, ?_⟩
        · show sys.taskbar.map Prod.fst =
            (alUpdate sys.wm.windows id
              (fun w => { w with min := false, max := false })).map Prod.fst
          rw [keys_alUpdate]
          exact hkeys
        · show ((alUpdate sys.wm.windows id
              (fun w => { w with min := false, max := false })).map Prod.fst).Nodup
          rw [keys_alUpdate]
          exact hnodup
      · rw [Bool.not_eq_true] at hmin
        rw [toggleMinimize_of_not_min _ _ w hget hmin]
        refine ⟨?_, ?_⟩
        · show sys.taskbar.map Prod.fst =
            (alUpdate sys.wm.windows id
              (fun w => { w with min := true })).map Prod.fst
          rw [keys_alUpdate]
          exact hkeys
        · show ((alUpdate sys.wm.windows id
              (fun w => { w with min := true })).map Prod.fst).Nodup
          rw [keys_alUpdate]
          exact hnodup

theorem closeAllLoop_events (entries : List (String × WinState)) (s : WMState) :
    (closeAllLoop s entries).2.map (fun em => em.event) =
      entries.map (fun e => WindowEvent.mk .close e.1) := by
  induction entries generalizing s with
  | nil => rfl
  | cons e rest ih => simp [closeAllLoop, engineClose, ih]

theorem relayAll_closeAllLoop (entries : List (String × WinState)) (s : WMState)
    (tb : TaskbarState) :
    relayAll tb (closeAllLoop s entries).2 =
      entries.foldl (fun acc e => removeProgram acc e.1) tb := by
  induction entries generalizing s tb with
  | nil => rfl
  | cons e rest ih =>
      simp only [closeAllLoop, engineClose, relayAll, List.foldl_cons,
        List.foldl_append] at ih ⊢
      exact ih _ _

theorem foldl_removeProgram_eq_nil (entries : List (String × WinState))
    (tb : TaskbarState)
    (hkeys : tb.map Prod.fst = entries.map Prod.fst)
    (hnodup : (entries.map Prod.fst).Nodup) :
    entries.foldl (fun acc e => removeProgram acc e.1) tb = [] := by
  induction entries generalizing tb with
  | nil => simpa using congrArg List.length hkeys
  | cons e rest ih =>
      simp only [List.map_cons, List.nodup_cons] at hkeys hnodup
      simp only [List.foldl_cons]
      apply ih
      · rw [removeProgram, keys_alDelete, hkeys]
        simp only [List.filter_cons]
        have hself : (decide (e.1 ≠ e.1)) = false := by simp
        rw [hself]
        apply List.filter_eq_self.mpr
        intro a ha
        simp only [ne_eq, decide_eq_true_eq]
        intro hc
        exact hnodup.1 (hc ▸ ha)
      · exact hnodup.2

theorem sysInv_sysCloseAllWindows (sys : SysState) (h : SysInv sys) :
    SysInv (sysCloseAllWindows sys) := by
  obtain ⟨hkeys, hnodup⟩ := h
  refine ⟨?_, by simp [sysCloseAllWindows, closeAllWindows]⟩
  simp only [sysCloseAllWindows, closeAllWindows]
  rw [relayAll_closeAllLoop, foldl_removeProgram_eq_nil _ _ hkeys hnodup]
  rfl

/-- Every reachable Desktop state satisfies the window ↔ taskbar coupling. -/
theorem reachable_sysInv {sys : SysState} (h : Reachable sys) : SysInv sys := by
  induction h with
  | init => exact sysInv_initial
  | create cfg _ ih => exact sysInv_sysCreateWindow _ cfg ih
  | close id _ ih => exact sysInv_sysCloseWindow _ id ih
  | minimize id _ ih => exact sysInv_sysMinimizeWindow _ id ih
  | maximize id _ ih => exact sysInv_sysMaximizeWindow _ id ih
  | restore id _ ih => exact sysInv_sysRestoreWindow _ id ih
  | focus id _ ih => exact sysInv_sysFocusWindow _ id ih
  | toggle id _ ih => exact sysInv_sysToggleMinimize _ id ih
  | closeAll _ ih => exact sysInv_sysCloseAllWindows _ ih

-- ===========================================================================
-- Further support lemmas
-- ===========================================================================

theorem alGet_map_engineFocusEntry_self (m : List (String × WinState))
    (id : String) :
    alGet (m.map (engineFocusEntry id)) id =
      (alGet m id).map (fun w => { w with focused := true }) := by
  induction m with
  | nil => simp [alGet]
  | cons e rest ih =>
      by_cases he : e.1 = id <;> simp [engineFocusEntry, he, alGet, ih]

theorem engineFocus_focus_event_mem (s : WMState) (id : String) :
    WindowEvent.mk .focus id ∈ (engineFocus s id).2.map (fun em => em.event) := by
  simp [engineFocus]

theorem lexLe_total : ∀ a b : List Char, lexLe a b = true ∨ lexLe b a = true
  | [], _ => Or.inl rfl
  | _ :: _, [] => Or.inr rfl
  | a :: as, b :: bs => by
      by_cases hab : a = b
      · subst hab
        simp only [lexLe, if_pos rfl]
        exact lexLe_total as bs
      · rcases lt_or_gt_of_ne hab with h | h
        · left
          simp only [lexLe, if_neg hab]
          exact decide_eq_true h
        · right
          have hba : ¬ b = a := fun hc => hab hc.symm
          simp only [lexLe, if_neg hba]
          exact decide_eq_true h

theorem lexLe_trans : ∀ a b c : List Char,
    lexLe a b = true → lexLe b c = true → lexLe a c = true
  | [], _, _, _, _ => rfl
  | _ :: _, [], _, h, _ => by simp [lexLe] at h
  | _ :: _, _ :: _, [], _, h => by simp [lexLe] at h
  | a :: as, b :: bs, c :: cs, h1, h2 => by
      by_cases hab : a = b
      · subst hab
        by_cases hac : a = c
        · subst hac
          simp only [lexLe, if_pos rfl] at h1 h2 ⊢
          exact lexLe_trans _ _ _ h1 h2
        · simp only [lexLe, if_pos rfl] at h1
          simp only [lexLe, if_neg hac] at h2 ⊢
          exact h2
      · by_cases hbc : b = c
        · subst hbc
          simp only [lexLe, if_neg hab] at h1 ⊢
          exact h1
        · simp only [lexLe, if_neg hab] at h1
          simp only [lexLe, if_neg hbc] at h2
          have hac : a < c :=
            lt_trans (of_decide_eq_true h1) (of_decide_eq_true h2)
          have hne : ¬ a = c := ne_of_lt hac
          simp only [lexLe, if_neg hne]
          exact decide_eq_true hac

theorem smRel_isTotal : IsTotal AppDefinition smRel := by
  constructor
  intro a b
  rcases Nat.lt_trichotomy (groupRank a.startMenuGroup)
      (groupRank b.startMenuGroup) with h | h | h
  · exact Or.inl (Or.inl h)
  · rcases lexLe_total a.title.data b.title.data with ht | ht
    · exact Or.inl (Or.inr ⟨h, ht⟩)
    · exact Or.inr (Or.inr ⟨h.symm, ht⟩)
  · exact Or.inr (Or.inl h)

theorem smRel_isTrans : IsTrans AppDefinition smRel := by
  constructor
  intro a b c hab hbc
  rcases hab with h1 | ⟨h1, t1⟩ <;> rcases hbc with h2 | ⟨h2, t2⟩
  · exact Or.inl (h1.trans h2)
  · exact Or.inl (h2 ▸ h1)
  · exact Or.inl (h1 ▸ h2)
  · exact Or.inr ⟨h1.trans h2, lexLe_trans _ _ _ t1 t2⟩

-- ===========================================================================
-- Claim theorems
-- ===========================================================================

/-- C1: for every `WindowConfig` whose (nonempty) id already maps to a live
window, a second `createWindow` call creates no new window and emits no second
`open` event — it returns the id of the original instance with the window map
domain (`getWindowIds`) and counter unchanged, leaves the existing window
focused, and emits a `focus` event for it.  (The empty id never maps to a live
window: `createWindow` replaces a falsy id by a synthetic `window-N` name
before storing.) -/
theorem c1_createWindow_idempotent (s : WMState) (cfg : WindowConfig)
    (w : WinState) (hne : cfg.id ≠ "")
    (hex : alGet s.windows cfg.id = some w) :
    (createWindow s cfg).1 = cfg.id ∧
    getWindowIds (createWindow s cfg).2.1 = getWindowIds s ∧
    (createWindow s cfg).2.1.windowCounter = s.windowCounter ∧
    (∀ em ∈ (createWindow s cfg).2.2, em.event.type ≠ .opened) ∧
    (alGet (createWindow s cfg).2.1.windows cfg.id).map WinState.focused =
      some true ∧
    WindowEvent.mk .focus cfg.id ∈
      (createWindow s cfg).2.2.map (fun em => em.event) := by
  have heff : effectiveId s cfg = cfg.id := if_neg hne
  have hcnt : effectiveCounter s cfg = s.windowCounter := if_neg hne
  have hhas : alHas s.windows (effectiveId s cfg) = true := by
    rw [heff]
    unfold alHas
    rw [hex]
    rfl
  rw [createWindow_existing _ _ hhas, heff, hcnt,
    focusWindow_some { windows := s.windows, windowCounter := s.windowCounter }
      cfg.id w hex]
  refine ⟨rfl, ?_, rfl, ?_, ?_, ?_⟩
  · show getWindowIds
        (engineFocus { windows := s.windows, windowCounter := s.windowCounter }
          cfg.id).1 = getWindowIds s
    unfold getWindowIds
    rw [keys_engineFocus]
  · intro em hm
    exact (engineFocus_emissions_passive _ _ em hm).1
  · show (alGet (s.windows.map (engineFocusEntry cfg.id)) cfg.id).map
        WinState.focused = some true
    rw [alGet_map_engineFocusEntry_self, hex]
    rfl
  · exact engineFocus_focus_event_mem _ _

/-- C1 witness: duplicating the creation of the live window "a" returns "a",
keeps the id set, and leaves "a" focused. -/
theorem c1_witness :
    (createWindow sampleWM dupConfig).1 = "a" ∧
    getWindowIds (createWindow sampleWM dupConfig).2.1 = getWindowIds sampleWM ∧
    (alGet (createWindow sampleWM dupConfig).2.1.windows "a").map
      WinState.focused = some true := by
  have h := c1_createWindow_idempotent sampleWM dupConfig sampleWin
    (by decide) (by decide)
  exact ⟨h.1, h.2.1, h.2.2.2.2.1⟩

/-- C2 counterexample: closing the live window "a" delivers exactly one close
event, and at delivery time `hasWindow "a"` is still true inside the handler —
the claim predicts the listener observes false. -/
theorem c2_counterexample :
    (closeWindow sampleWM "a").2.2.map
        (fun em => (em.event, hasWindow em.seen "a")) =
      [(⟨.close, "a"⟩, true)] := by
  decide

/-- C2 amended: the `onclose` handler emits the `close` event first and
removes the id from the live map only afterwards, so a listener calling
`hasWindow(id)` from inside the close handler observes true; the returned
final state has the id deleted. -/
theorem c2_close_event_before_delete (s : WMState) (id : String) (w : WinState)
    (h : alGet s.windows id = some w) :
    closeWindow s id =
      (true, { s with windows := alDelete s.windows id }, [⟨⟨.close, id⟩, s⟩]) ∧
    hasWindow s id = true := by
  refine ⟨?_, ?_⟩
  · rw [closeWindow_some _ _ w h]
    rfl
  · unfold hasWindow alHas
    rw [h]
    rfl

/-- C2 amended witness: closing "a" in the one-window manager. -/
theorem c2_witness :
    closeWindow sampleWM "a" =
      (true, { sampleWM with windows := alDelete sampleWM.windows "a" },
        [⟨⟨.close, "a"⟩, sampleWM⟩]) ∧
    hasWindow sampleWM "a" = true :=
  c2_close_event_before_delete sampleWM "a" sampleWin (by decide)

/-- C3: from any reachable Desktop state, `closeAllWindows()` leaves no live
window, each closure emits its own `close` event (the emitted events are
exactly one close per previously live window, in map order), and since the
Desktop relays every close into `Taskbar.removeProgram` in the same
synchronous turn, the taskbar program map is empty afterwards. -/
theorem c3_closeAll_empties_taskbar (sys : SysState) (h : Reachable sys) :
    (sysCloseAllWindows sys).taskbar = [] ∧
    (sysCloseAllWindows sys).wm.windows = [] ∧
    (closeAllWindows sys.wm).2.map (fun em => em.event) =
      sys.wm.windows.map (fun e => WindowEvent.mk .close e.1) := by
  obtain ⟨hkeys, hnodup⟩ := reachable_sysInv h
  refine ⟨?_, rfl, ?_⟩
  · show relayAll sys.taskbar (closeAllWindows sys.wm).2 = []
    simp only [closeAllWindows]
    rw [relayAll_closeAllLoop, foldl_removeProgram_eq_nil _ _ hkeys hnodup]
  · simp only [closeAllWindows]
    exact closeAllLoop_events _ _

/-- C3 witness: the reachable one-window Desktop is fully cleared. -/
theorem c3_witness :
    (sysCloseAllWindows sampleSys).taskbar = [] ∧
    (sysCloseAllWindows sampleSys).wm.windows = [] ∧
    (closeAllWindows sampleSys.wm).2.map (fun em => em.event) =
      sampleSys.wm.windows.map (fun e => WindowEvent.mk .close e.1) :=
  c3_closeAll_empties_taskbar sampleSys
    (Reachable.create firstConfig Reachable.init)

/-- C4: each of closeWindow, minimizeWindow, maximizeWindow, restoreWindow and
focusWindow returns false and changes nothing (same state, no events) when the
id is not live, and returns true when it is; as total functions of the
embedding they throw nothing. -/
theorem c4_unknown_id_boundary (s : WMState) (id : String) :
    (alGet s.windows id = none →
      closeWindow s id = (false, s, []) ∧
      minimizeWindow s id = (false, s, []) ∧
      maximizeWindow s id = (false, s, []) ∧
      restoreWindow s id = (false, s, []) ∧
      focusWindow s id = (false, s, [])) ∧
    (∀ w, alGet s.windows id = some w →
      (closeWindow s id).1 = true ∧
      (minimizeWindow s id).1 = true ∧
      (maximizeWindow s id).1 = true ∧
      (restoreWindow s id).1 = true ∧
      (focusWindow s id).1 = true) := by
  constructor
  · intro h
    exact ⟨closeWindow_none _ _ h, minimizeWindow_none _ _ h,
      maximizeWindow_none _ _ h, restoreWindow_none _ _ h,
      focusWindow_none _ _ h⟩
  · intro w h
    refine ⟨?_, ?_, ?_, ?_, ?_⟩
    · rw [closeWindow_some _ _ w h]
    · rw [minimizeWindow_some _ _ w h]
    · rw [maximizeWindow_some _ _ w h]
    · rw [restoreWindow_some _ _ w h]
    · rw [focusWindow_some _ _ w h]

/-- C4 witness: the unknown id "nope" is rejected without effect and the live
id "a" is accepted, for all five operations. -/
theorem c4_witness :
    (closeWindow sampleWM "nope" = (false, sampleWM, []) ∧
      minimizeWindow sampleWM "nope" = (false, sampleWM, []) ∧
      maximizeWindow sampleWM "nope" = (false, sampleWM, []) ∧
      restoreWindow sampleWM "nope" = (false, sampleWM, []) ∧
      focusWindow sampleWM "nope" = (false, sampleWM, [])) ∧
    ((closeWindow sampleWM "a").1 = true ∧
      (minimizeWindow sampleWM "a").1 = true ∧
      (maximizeWindow sampleWM "a").1 = true ∧
      (restoreWindow sampleWM "a").1 = true ∧
      (focusWindow sampleWM "a").1 = true) :=
  ⟨(c4_unknown_id_boundary sampleWM "nope").1 (by decide),
   (c4_unknown_id_boundary sampleWM "a").2 sampleWin (by decide)⟩

/-- C5: `launch(id)` returns false, leaves the manager untouched and emits
nothing when the id is not registered; when it is registered it awaits the
app's launch factory and submits the produced configuration to `createWindow`,
returning true. -/
theorem c5_launch_boundary (reg : AppRegistry) (wm : WMState) (id : String) :
    (alGet reg.apps id = none → launch reg wm id = (false, wm, [])) ∧
    (∀ app, alGet reg.apps id = some app →
      launch reg wm id =
        (true, (createWindow wm (app.launch ())).2.1,
          (createWindow wm (app.launch ())).2.2)) :=
  ⟨fun h => launch_none _ _ _ h, fun app h => launch_some _ _ _ app h⟩

/-- C5 witness: launching the unregistered id "nope" fails without effect;
launching "calc" submits the factory's configuration to `createWindow`. -/
theorem c5_witness :
    launch sampleRegistry WMState.initial "nope" = (false, WMState.initial, []) ∧
    launch sampleRegistry WMState.initial "calc" =
      (true, (createWindow WMState.initial (calcApp.launch ())).2.1,
        (createWindow WMState.initial (calcApp.launch ())).2.2) :=
  ⟨(c5_launch_boundary sampleRegistry WMState.initial "nope").1 rfl,
   (c5_launch_boundary sampleRegistry WMState.initial "calc").2 calcApp rfl⟩

/-- C6: `getStartMenuApps` returns exactly the registered apps with a
start-menu group (a permutation of the truthiness filter over the registration
list), sorted by the group-rank / title comparator (primary, secondary, power,
then title) — and being a function of the registry it is deterministic for
identical input; on the example registry {A: secondary, B: primary,
C: primary, title B < C} it yields [B, C, A]. -/
theorem c6_start_menu_order :
    (∀ reg : AppRegistry,
      List.Sorted smRel (getStartMenuApps reg) ∧
      (getStartMenuApps reg).Perm
        ((listApps reg).filter (fun app => app.startMenuGroup.isSome))) ∧
    (getStartMenuApps exampleRegistry).map (fun app => app.id) =
      ["B", "C", "A"] := by
  haveI := smRel_isTotal
  haveI := smRel_isTrans
  refine ⟨fun reg => ⟨List.sorted_insertionSort smRel _,
    List.perm_insertionSort smRel _⟩, ?_⟩
  decide

/-- C7: `Desktop.destroy()` does not reverse the subscriptions made during
initialization — the Taskbar's six handler registrations are the only ones
removed, and the document-level taskbar-click, keydown and menu-action
handlers, the icon-container and context-menu handlers and the six icon
handlers all survive the construct / destroy cycle. -/
theorem c7_destroy_leaks_listeners :
    desktopLeakedListeners =
      [("document", "taskbar-click"),
       ("desktop-icons", "click"), ("desktop", "contextmenu"),
       ("document", "keydown"),
       ("document", "menu-action"),
       ("icon-my-computer", "click"), ("icon-my-computer", "dblclick"),
       ("icon-my-documents", "click"), ("icon-my-documents", "dblclick"),
       ("icon-recycle-bin", "click"), ("icon-recycle-bin", "dblclick")] ∧
    desktopLeakedListeners ≠ [] := by
  decide

/-- C8 counterexample: `zeroWidthConfig` supplies the explicit width 0, yet
the created window gets the default width 400 — the `||` fallback treats the
explicit 0 as absent, so an explicit width does not always win. -/
theorem c8_counterexample :
    zeroWidthConfig.width = some 0 ∧
    (alGet (createWindow WMState.initial zeroWidthConfig).2.1.windows "z").map
      WinState.width = some 400 := by
  decide

/-- C8 amended: for a fresh id, an explicit x or y always wins over the
cascade default (`??` semantics, zero included), and an explicit nonzero
width or height wins over the 400 / 300 defaults — but an explicit zero width
or height is falsy under `||` and falls back to the default; the window is
stored exactly as built by `newWindowState`. -/
theorem c8_explicit_geometry_wins (s : WMState) (cfg : WindowConfig)
    (hhas : alHas s.windows (effectiveId s cfg) = false) :
    (∀ v, cfg.x = some v → (newWindowState s cfg).x = v) ∧
    (∀ v, cfg.y = some v → (newWindowState s cfg).y = v) ∧
    (∀ v, cfg.width = some v → v ≠ 0 → (newWindowState s cfg).width = v) ∧
    (∀ v, cfg.height = some v → v ≠ 0 → (newWindowState s cfg).height = v) ∧
    (cfg.width = some 0 → (newWindowState s cfg).width = 400) ∧
    (cfg.height = some 0 → (newWindowState s cfg).height = 300) ∧
    alGet (createWindow s cfg).2.1.windows (effectiveId s cfg) =
      some (newWindowState s cfg) := by
  refine ⟨?_, ?_, ?_, ?_, ?_, ?_, ?_⟩
  · intro v hv
    simp [newWindowState, hv]
  · intro v hv
    simp [newWindowState, hv]
  · intro v hv hnz
    simp [newWindowState, jsOrInt, hv, hnz]
  · intro v hv hnz
    simp [newWindowState, jsOrInt, hv, hnz]
  · intro hv
    simp [newWindowState, jsOrInt, hv]
  · intro hv
    simp [newWindowState, jsOrInt, hv]
  · rw [createWindow_new _ _ hhas]
    show alGet (alSet s.windows (effectiveId s cfg) (newWindowState s cfg))
        (effectiveId s cfg) = some (newWindowState s cfg)
    exact alGet_alSet_self _ _ _

/-- C8 amended witness: explicit geometry 7/9/5/6 is used verbatim for the
fresh window "e". -/
theorem c8_witness :
    (newWindowState WMState.initial explicitGeomConfig).x = 7 ∧
    (newWindowState WMState.initial explicitGeomConfig).y = 9 ∧
    (newWindowState WMState.initial explicitGeomConfig).width = 5 ∧
    (newWindowState WMState.initial explicitGeomConfig).height = 6 ∧
    alGet (createWindow WMState.initial explicitGeomConfig).2.1.windows
        (effectiveId WMState.initial explicitGeomConfig) =
      some (newWindowState WMState.initial explicitGeomConfig) := by
  have h := c8_explicit_geometry_wins WMState.initial explicitGeomConfig
    (by decide)
  exact ⟨h.1 7 rfl, h.2.1 9 rfl, h.2.2.1 5 rfl (by decide),
    h.2.2.2.1 6 rfl (by decide), h.2.2.2.2.2.2⟩

/-- C9: on a live window, `toggleMinimize` restores when the window is
minimized and minimizes otherwise, as a single operation; starting from the
open (non-minimized, non-maximized) state, applying it twice returns the
manager to an observably identical state — same counter, same id list, and
every lookup (flags and geometry included, so focus as well) unchanged. -/
theorem c9_toggleMinimize_involution (s : WMState) (id : String) (w : WinState)
    (h : alGet s.windows id = some w) :
    (w.min = true →
      toggleMinimize s id =
        (true, (engineRestore s id).1, (engineRestore s id).2)) ∧
    (w.min = false →
      toggleMinimize s id =
        (true, (engineMinimize s id).1, (engineMinimize s id).2)) ∧
    (w.min = false → w.max = false →
      (toggleMinimize (toggleMinimize s id).2.1 id).2.1.windowCounter =
        s.windowCounter ∧
      getWindowIds (toggleMinimize (toggleMinimize s id).2.1 id).2.1 =
        getWindowIds s ∧
      ∀ k, alGet (toggleMinimize (toggleMinimize s id).2.1 id).2.1.windows k =
        alGet s.windows k) := by
  refine ⟨fun hmin => toggleMinimize_of_min _ _ w h hmin,
    fun hmin => toggleMinimize_of_not_min _ _ w h hmin, ?_⟩
  intro hmin hmax
  have hfirst : (toggleMinimize s id).2.1 = (engineMinimize s id).1 := by
    rw [toggleMinimize_of_not_min _ _ w h hmin]
  have h1 : alGet (engineMinimize s id).1.windows id =
      some { w with min := true } := by
    show alGet (alUpdate s.windows id (fun w => { w with min := true })) id = _
    rw [alGet_alUpdate_self, h]
    rfl
  have hsecond : (toggleMinimize (engineMinimize s id).1 id).2.1 =
      (engineRestore (engineMinimize s id).1 id).1 := by
    rw [toggleMinimize_of_min _ _ { w with min := true } h1 rfl]
  rw [hfirst, hsecond]
  refine ⟨rfl, ?_, ?_⟩
  · show (alUpdate (alUpdate s.windows id (fun w => { w with min := true })) id
        (fun w => { w with min := false, max := false })).map Prod.fst =
      s.windows.map Prod.fst
    rw [keys_alUpdate, keys_alUpdate]
  · intro k
    show alGet (alUpdate (alUpdate s.windows id (fun w => { w with min := true }))
        id (fun w => { w with min := false, max := false })) k =
      alGet s.windows k
    rw [alUpdate_alUpdate]
    by_cases hk : k = id
    · subst hk
      rw [alGet_alUpdate_self, h]
      simp only [Option.map_some']
      congr 1
      cases w
      simp_all
    · rw [alGet_alUpdate_ne _ _ _ _ hk]

/-- C9 witness: toggling the open window "a" minimizes it, and toggling twice
restores the original lookup for "a". -/
theorem c9_witness :
    toggleMinimize sampleWM "a" =
      (true, (engineMinimize sampleWM "a").1, (engineMinimize sampleWM "a").2) ∧
    alGet (toggleMinimize (toggleMinimize sampleWM "a").2.1 "a").2.1.windows
      "a" = alGet sampleWM.windows "a" := by
  have h := c9_toggleMinimize_involution sampleWM "a" sampleWin (by decide)
  exact ⟨h.2.1 (by decide), (h.2.2 (by decide) (by decide)).2.2 "a"⟩

/-- C10: `isMinimized` reports false both for an absent id and for a live,
non-minimized window — the two situations are indistinguishable through
`isMinimized` alone — while `hasWindow` reports exactly liveness. -/
theorem c10_isMinimized_conflates_absent (s : WMState) (id : String) :
    (alGet s.windows id = none → isMinimized s id = false) ∧
    (∀ w, alGet s.windows id = some w → w.min = false →
      isMinimized s id = false) ∧
    hasWindow s id = (alGet s.windows id).isSome := by
  refine ⟨?_, ?_, rfl⟩
  · intro h
    unfold isMinimized
    rw [h]
  · intro w h hm
    unfold isMinimized
    rw [h]
    exact hm

/-- C10 witness: the absent id "nope" and the live open window "a" both
report `isMinimized = false`, while `hasWindow` separates them. -/
theorem c10_witness :
    isMinimized sampleWM "nope" = false ∧
    isMinimized sampleWM "a" = false ∧
    hasWindow sampleWM "nope" = false ∧
    hasWindow sampleWM "a" = true := by
  have habs := (c10_isMinimized_conflates_absent sampleWM "nope").1 (by decide)
  have hlive := (c10_isMinimized_conflates_absent sampleWM "a").2.1 sampleWin
    (by decide) (by decide)
  exact ⟨habs, hlive, by decide, by decide⟩
